import Mathlib

/-!
Verification development for the adaptive assessment and response pipeline
of the A.C.E.2 educational chatbot. The front-end orchestration is embedded
from src/main.py; the core components (FeatureExtractor, IntelligenceEstimator,
ResponsePolicy, SessionStore) are not present in the source tree, so they are
modelled from the specification (spec.md, sections 3 and 4).
-/

namespace ACE2

/-- Clamp a rational into the interval [lo, hi] (lo first, so the lower
bound wins when lo > hi; in this development it is always called with
lo ≤ hi). -/
def clampQ (x lo hi : ℚ) : ℚ := max lo (min hi x)

/-- Whitespace test used by the front-end model of Python str.strip. -/
def isWS (c : Char) : Bool := c == ' ' || c == '\t' || c == '\n' || c == '\r'

/-- Model of Python str.strip: drop leading and trailing whitespace. -/
def strip (s : String) : String :=
  String.mk (((s.data.dropWhile isWS).reverse.dropWhile isWS).reverse)

/-- Model of Python str.lower over the character list. -/
def lowerStr (s : String) : String := String.mk (s.data.map Char.toLower)

/-- Accumulating word splitter over a character list: p marks separator
characters, acc holds the characters of the word in progress (reversed). -/
def wordsAux (p : Char → Bool) : List Char → List Char → List (List Char)
  | [], acc => if acc.isEmpty then [] else [acc.reverse]
  | c :: rest, acc =>
      if p c then
        if acc.isEmpty then wordsAux p rest []
        else acc.reverse :: wordsAux p rest []
      else wordsAux p rest (c :: acc)

/-- Modelled from the spec: the FeatureExtractor tokenizer of
core/text_analyzer.py (absent from src/): split on whitespace and
punctuation boundaries, a simple locale-agnostic heuristic. -/
def tokenize (text : String) : List String :=
  (wordsAux (fun c => !c.isAlphanum) text.data []).map String.mk

/-- Modelled from the spec: FeatureBundle, the immutable value derived from
one utterance (spec section 3). -/
structure FeatureBundle where
  tokenCount : Nat
  uniqueTokenRatio : ℚ
  avgWordLength : ℚ
  sentenceCount : Nat
  topicTags : List String
  complexityScore : ℚ
  vocabularyScore : ℚ
deriving DecidableEq

/-- The zero-valued bundle returned for empty or whitespace-only text. -/
def zeroBundle : FeatureBundle :=
  { tokenCount := 0, uniqueTokenRatio := 0, avgWordLength := 0,
    sentenceCount := 0, topicTags := [], complexityScore := 0,
    vocabularyScore := 0 }

/-- Modelled from the spec: the fixed keyword lexicon grouped by subject
used by the FeatureExtractor for topic tagging (exact case-insensitive
token match, spec section 4.1). -/
def topicLexicon : List (String × List String) :=
  [("science", ["gravity", "atom", "energy", "physics"]),
   ("math", ["equation", "algebra", "calculus", "number"]),
   ("history", ["war", "empire", "revolution"])]

/-- Subjects whose lexicon contains some token of the utterance. -/
def topicMatches (tokens : List String) : List String :=
  (topicLexicon.filter
    (fun p => p.2.any (fun kw => tokens.any (fun t => lowerStr t == kw)))).map
    Prod.fst

/-- Sentence count heuristic: number of sentence-ending characters,
at least 1 for non-empty token lists. -/
def countSentences (text : String) : Nat :=
  max 1 ((text.data.filter (fun c => c == '.' || c == '!' || c == '?')).length)

/-- Modelled from the spec: `analyze(text) -> FeatureBundle`, the
FeatureExtractor of core/text_analyzer.py (absent from src/). Pure, total;
on empty or whitespace-only text it returns the zero bundle. The weighting
constants are fixed documented choices, as the spec directs (section 9):
complexity blends average word length, average sentence length and the
share of long (more than 6 characters) words; vocabulary blends the
distinct-token ratio with the long-word share; both are clamped to
[0, 10]. -/
def analyze (text : String) : FeatureBundle :=
  let tokens := tokenize text
  let n := tokens.length
  if n = 0 then zeroBundle
  else
    let totalLen : ℚ := ((tokens.map String.length).sum : Nat)
    let avgLen : ℚ := totalLen / (n : ℚ)
    let sentences := countSentences text
    let avgSentLen : ℚ := (n : ℚ) / (sentences : ℚ)
    let longCount := (tokens.filter (fun t => t.length > 6)).length
    let longRatio : ℚ := (longCount : ℚ) / (n : ℚ)
    let distinct := tokens.dedup.length
    let uniqueRatio : ℚ := (distinct : ℚ) / (n : ℚ)
    { tokenCount := n,
      uniqueTokenRatio := uniqueRatio,
      avgWordLength := avgLen,
      sentenceCount := sentences,
      topicTags := topicMatches tokens,
      complexityScore :=
        clampQ ((avgLen / 8 + avgSentLen / 20 + longRatio) * (10 / 3)) 0 10,
      vocabularyScore := clampQ (uniqueRatio * 8 + longRatio * 2) 0 10 }

/-- Modelled from the spec: IntelligenceEstimate, the running per-session
belief (spec section 3): a continuous level on the 0 to 10 scale, a sample
count, a smoothed trend and a saturating confidence. -/
structure IntelligenceEstimate where
  level : ℚ
  sampleCount : Nat
  trend : ℚ
  confidence : ℚ
deriving DecidableEq

/-- Modelled from the spec: the default estimate a fresh session starts
from (midpoint level, no samples yet). -/
def defaultEstimate : IntelligenceEstimate :=
  { level := 5, sampleCount := 0, trend := 0, confidence := 0 }

/-- The bound on how far one turn may move the level estimate. -/
def MAX_STEP : ℚ := 1

/-- Blended score: single scalar from vocabulary and complexity scores
(spec glossary). -/
def blendedScore (b : FeatureBundle) : ℚ :=
  (b.vocabularyScore + b.complexityScore) / 2

/-- Modelled from the spec: `assess(bundle, prior)`, the
IntelligenceEstimator of core/intelligence_assessor.py (absent from src/).
First-ever assessment (sample count 0) seeds the level directly from the
blended score with low confidence; later assessments move the level by a
step clamped to [-MAX_STEP, MAX_STEP], scaled by a learning rate that
decreases as the sample count grows; trend is an exponential moving
average of the steps; confidence increases monotonically and saturates. -/
def assess (b : FeatureBundle) (prior : IntelligenceEstimate) :
    IntelligenceEstimate :=
  if prior.sampleCount = 0 then
    { level := blendedScore b, sampleCount := 1, trend := 0,
      confidence := 1 - 1 / 2 }
  else
    let rate : ℚ := 1 / ((prior.sampleCount : ℚ) + 1)
    let step := clampQ ((blendedScore b - prior.level) * rate)
      (-MAX_STEP) MAX_STEP
    { level := prior.level + step,
      sampleCount := prior.sampleCount + 1,
      trend := prior.trend + (step - prior.trend) / 4,
      confidence := 1 - 1 / ((prior.sampleCount : ℚ) + 2) }

/-- Modelled from the spec: the discrete response registers of the
ResponsePolicy (spec section 4.3). -/
inductive Tier where
  | novice
  | intermediate
  | advanced
  | expert
deriving DecidableEq

/-- Lowest boundary of the tier ladder. -/
def TIER1 : ℚ := 5 / 2

/-- Middle boundary of the tier ladder. -/
def TIER2 : ℚ := 5

/-- Upper boundary of the tier ladder. -/
def TIER3 : ℚ := 15 / 2

/-- Modelled from the spec: the ResponsePolicy map from the continuous
estimate to a register via fixed thresholds; an estimate exactly on a
boundary rounds toward the lower, more conservative tier. -/
def tierOf (level : ℚ) : Tier :=
  if level ≤ TIER1 then .novice
  else if level ≤ TIER2 then .intermediate
  else if level ≤ TIER3 then .advanced
  else .expert

/-- Modelled from the spec: SessionRecord, the unit of persistence (spec
section 3). nUpdates counts applyIntelligenceUpdate calls so the running
averages can be maintained incrementally without replaying history. -/
structure SessionRecord where
  sessionId : String
  userName : String
  interactionCount : Nat
  estimate : IntelligenceEstimate
  avgVocabularyScore : ℚ
  avgComplexityScore : ℚ
  nUpdates : Nat
  topicsDiscussed : List String
deriving DecidableEq

/-- A freshly created record for a session id and display name. -/
def freshRecord (sid name : String) : SessionRecord :=
  { sessionId := sid, userName := name, interactionCount := 0,
    estimate := defaultEstimate, avgVocabularyScore := 0,
    avgComplexityScore := 0, nUpdates := 0, topicsDiscussed := [] }

/-- Modelled from the spec: the SessionStore state, records keyed by
session id (core/session_manager.py is absent from src/). -/
abbrev Store := List (String × SessionRecord)

/-- Modelled from the spec: `load(sessionId)` returns the record snapshot,
none when the id is unknown (NotFound). -/
def load (store : Store) (sid : String) : Option SessionRecord :=
  match store with
  | [] => none
  | (k, r) :: rest => if k = sid then some r else load rest sid

/-- Apply f to the record stored under sid, leaving other sessions
untouched; a no-op when the id is unknown. -/
def updateStore (store : Store) (sid : String)
    (f : SessionRecord → SessionRecord) : Store :=
  match store with
  | [] => []
  | (k, r) :: rest =>
      if k = sid then (k, f r) :: rest
      else (k, r) :: updateStore rest sid f

/-- Modelled from the spec: the per-record merge of
`applyIntelligenceUpdate(sessionId, bundle, estimate)`: store the new
estimate, advance the running vocabulary and complexity averages with the
incremental mean formula, append the newly seen topics. -/
def applyIntelligenceUpdate (r : SessionRecord) (b : FeatureBundle)
    (e : IntelligenceEstimate) : SessionRecord :=
  let n : ℚ := (r.nUpdates : ℚ) + 1
  { r with
    estimate := e,
    nUpdates := r.nUpdates + 1,
    avgVocabularyScore :=
      r.avgVocabularyScore + (b.vocabularyScore - r.avgVocabularyScore) / n,
    avgComplexityScore :=
      r.avgComplexityScore + (b.complexityScore - r.avgComplexityScore) / n,
    topicsDiscussed := r.topicsDiscussed ++ b.topicTags }

/-- Modelled from the spec: the SessionManager method called by
process_user_input in src/main.py to merge a new assessment into the
session. -/
def update_session_intelligence (store : Store) (sid : String)
    (b : FeatureBundle) (e : IntelligenceEstimate) : Store :=
  updateStore store sid (fun r => applyIntelligenceUpdate r b e)

/-- Modelled from the spec: `incrementInteraction(sessionId)`, called once
at the end of a completed turn. -/
def increment_interaction (store : Store) (sid : String) : Store :=
  updateStore store sid
    (fun r => { r with interactionCount := r.interactionCount + 1 })

/-- Modelled from the spec: reset clears the mutable fields of the record
and retains the session id and the display name. -/
def reset_record (r : SessionRecord) : SessionRecord :=
  freshRecord r.sessionId r.userName

/-- Modelled from the spec: `reset(sessionId)`, the SessionManager method
called by the reset command in src/main.py. -/
def reset_session (store : Store) (sid : String) : Store :=
  updateStore store sid reset_record

/-- Modelled from the spec: `createOrResume(userName)` with deterministic
id derivation; the new record is stored under the derived id. -/
def create_session (store : Store) (name : String) : String × Store :=
  let sid := String.append "session_" name
  (sid, (sid, freshRecord sid name) :: store)

/-- The three fallible pipeline stages called by
AIEducationalChatbot.process_user_input in src/main.py (analyze_text,
assess_intelligence, generate_response). Each may raise in Python, so each
is embedded as an Option-valued function; none models a raised
exception. -/
structure PipelineStages where
  analyzeStep : String → Option FeatureBundle
  assessStep : String → FeatureBundle → String → Option IntelligenceEstimate
  generateStep : String → IntelligenceEstimate → String → Option String

/-- The fixed fallback message returned by the except branch of
process_user_input in src/main.py. -/
def fallbackMessage : String :=
  "I\x27m having trouble understanding that. Could you rephrase your question?"

/-- Embedded from src/main.py, AIEducationalChatbot.process_user_input:
analyze, assess, merge the assessment into the session, generate the
response, and only then increment the interaction count; any stage failure
is caught and the fixed fallback message is returned, leaving later
mutations unapplied. -/
def process_user_input (stages : PipelineStages) (user_input session_id : String)
    (store : Store) : String × Store :=
  match stages.analyzeStep user_input with
  | none => (fallbackMessage, store)
  | some bundle =>
      match stages.assessStep user_input bundle session_id with
      | none => (fallbackMessage, store)
      | some est =>
          let store1 := update_session_intelligence store session_id bundle est
          match stages.generateStep user_input est session_id with
          | none => (fallbackMessage, store1)
          | some response => (response, increment_interaction store1 session_id)

/-- The action the conversation loop of src/main.py takes for one line of
raw input. -/
inductive LoopAction where
  | reprompt
  | quitCmd
  | helpCmd
  | statsCmd
  | resetCmd
  | processTurn
deriving DecidableEq

/-- Embedded from src/main.py, the dispatch performed by the body of
AIEducationalChatbot.start_conversation: strip the input, re-prompt on
empty input, recognise the special commands, otherwise process the turn
through the pipeline. -/
def dispatch (raw : String) : LoopAction :=
  let user_input := strip raw
  if user_input = "" then .reprompt
  else if ["quit", "exit", "bye"].contains (lowerStr user_input) then .quitCmd
  else if lowerStr user_input = "help" then .helpCmd
  else if lowerStr user_input = "stats" then .statsCmd
  else if lowerStr user_input = "reset" then .resetCmd
  else .processTurn

/-- Embedded from src/main.py, start_conversation: the entered name is
stripped and replaced by "Student" when empty. -/
def resolve_user_name (raw : String) : String :=
  let user_name := strip raw
  if user_name = "" then "Student" else user_name

/-- Embedded from src/main.py, start_conversation: resolve the name, then
create the session under it. -/
def start_session (store : Store) (rawName : String) : String × Store :=
  create_session store (resolve_user_name rawName)

/-- Fold a sequence of applyIntelligenceUpdate calls over a record. -/
def applyUpdates (r : SessionRecord)
    (l : List (FeatureBundle × IntelligenceEstimate)) : SessionRecord :=
  l.foldl (fun acc p => applyIntelligenceUpdate acc p.1 p.2) r

/-- A prior estimate with samples already taken, used in concrete
instantiations. -/
def midPrior : IntelligenceEstimate :=
  { level := 5, sampleCount := 3, trend := 0, confidence := 1 / 2 }

/-- A one-session store used in concrete instantiations. -/
def store0 : Store := [("session_Ada", freshRecord "session_Ada" "Ada")]

/-- Pipeline stages in which every stage succeeds, for concrete
instantiations: analysis and assessment run the modelled core, response
generation returns a fixed string. -/
def stagesOK : PipelineStages :=
  { analyzeStep := fun t => some (analyze t),
    assessStep := fun _ b _ => some (assess b defaultEstimate),
    generateStep := fun _ _ _ => some "ok" }

/-- Pipeline stages whose response-generation stage fails, for concrete
instantiations. -/
def stagesGenFail : PipelineStages :=
  { analyzeStep := fun t => some (analyze t),
    assessStep := fun _ b _ => some (assess b defaultEstimate),
    generateStep := fun _ _ _ => none }

/-- A concrete two-element update sequence. -/
def updateList : List (FeatureBundle × IntelligenceEstimate) :=
  [(zeroBundle, defaultEstimate), (analyze "gravity energy", defaultEstimate)]

theorem clampQ_mem (x lo hi : ℚ) (h : lo ≤ hi) :
    lo ≤ clampQ x lo hi ∧ clampQ x lo hi ≤ hi := by
  refine ⟨le_max_left _ _, max_le h (min_le_left _ _)⟩

theorem load_updateStore_self (store : Store) (sid : String)
    (f : SessionRecord → SessionRecord) :
    load (updateStore store sid f) sid = (load store sid).map f := by
  induction store with
  | nil => rfl
  | cons p rest ih =>
      obtain ⟨k, r⟩ := p
      by_cases h : k = sid
      · simp [updateStore, load, h]
      · simp [updateStore, load, h, ih]

/-- C2: for every input text, the complexity and vocabulary scores of
analyze lie in [0, 10], and when the token count of the bundle is 0 the
vocabulary score is exactly 0. -/
theorem C2_analyze_score_bounds (T : String) :
    (0 ≤ (analyze T).complexityScore ∧ (analyze T).complexityScore ≤ 10) ∧
    (0 ≤ (analyze T).vocabularyScore ∧ (analyze T).vocabularyScore ≤ 10) ∧
    ((analyze T).tokenCount = 0 → (analyze T).vocabularyScore = 0) := by
  have h010 : (0 : ℚ) ≤ 10 := by norm_num
  simp only [analyze]
  split
  · refine ⟨⟨?_, ?_⟩, ⟨?_, ?_⟩, fun _ => ?_⟩ <;> simp [zeroBundle]
  · next hn =>
      exact ⟨clampQ_mem _ 0 10 h010, clampQ_mem _ 0 10 h010,
        fun h0 => absurd h0 hn⟩

/-- C2 witness: the empty string has token count 0 and vocabulary score
0. -/
theorem C2_analyze_score_bounds_witness :
    (analyze "").tokenCount = 0 ∧ (analyze "").vocabularyScore = 0 :=
  ⟨by decide, (C2_analyze_score_bounds "").2.2 (by decide)⟩

/-- C5: analyze is deterministic; it is a pure function of the text alone,
so two calls on the same text give identical bundles. -/
theorem C5_analyze_deterministic (T₁ T₂ : String) (h : T₁ = T₂) :
    analyze T₁ = analyze T₂ := by rw [h]

/-- C5 witness: determinism instantiated at a concrete text. -/
theorem C5_analyze_deterministic_witness :
    analyze "What is gravity" = analyze "What is gravity" :=
  C5_analyze_deterministic "What is gravity" "What is gravity" rfl

/-- C6: an estimate exactly on a tier boundary resolves to the tier below
the boundary, never the tier above; values just above each boundary
already fall in the upper tier. -/
theorem C6_boundary_rounds_down :
    (tierOf TIER1 = Tier.novice ∧ tierOf (TIER1 + 1 / 10) = Tier.intermediate) ∧
    (tierOf TIER2 = Tier.intermediate ∧ tierOf (TIER2 + 1 / 10) = Tier.advanced) ∧
    (tierOf TIER3 = Tier.advanced ∧ tierOf (TIER3 + 1 / 10) = Tier.expert) := by
  refine ⟨⟨?_, ?_⟩, ⟨?_, ?_⟩, ⟨?_, ?_⟩⟩ <;>
    norm_num [tierOf, TIER1, TIER2, TIER3]

/-- C8: whitespace-only raw input makes the front-end loop re-prompt
without invoking the pipeline, and an empty string reaching analyze
directly yields the zero-valued bundle. -/
theorem C8_empty_input (raw : String) (h : strip raw = "") :
    dispatch raw = LoopAction.reprompt ∧ analyze "" = zeroBundle := by
  refine ⟨?_, by decide⟩
  simp [dispatch, h]

/-- C8 witness: a whitespace-only line re-prompts. -/
theorem C8_empty_input_witness :
    strip "   " = "" ∧ dispatch "   " = LoopAction.reprompt ∧
      analyze "" = zeroBundle :=
  ⟨by decide, (C8_empty_input "   " (by decide)).1,
    (C8_empty_input "   " (by decide)).2⟩

/-- C10: an empty or whitespace-only entered name is replaced by
"Student"; the resolved name is never empty, and the session is created
under the resolved name. -/
theorem C10_default_name (raw : String) (store : Store) :
    (strip raw = "" → resolve_user_name raw = "Student") ∧
    resolve_user_name raw ≠ "" ∧
    load (start_session store raw).2 (start_session store raw).1 =
      some (freshRecord (start_session store raw).1 (resolve_user_name raw)) := by
  refine ⟨fun h => by simp [resolve_user_name, h], ?_, ?_⟩
  · by_cases h : strip raw = ""
    · simp [resolve_user_name, h]
    · simp [resolve_user_name, h]
  · simp [start_session, create_session, load]

/-- C10 witness: a whitespace-only name resolves to Student and is
non-empty. -/
theorem C10_default_name_witness :
    strip "  " = "" ∧ resolve_user_name "  " = "Student" ∧
      resolve_user_name "  " ≠ "" :=
  ⟨by decide, (C10_default_name "  " []).1 (by decide),
    (C10_default_name "  " []).2.1⟩

/-- C1 counterexample: at a prior with sample count 0 (the default fresh
estimate, level 5) and the zero bundle, assess seeds the level directly
from the blended score 0, a move of 5 which exceeds MAX_STEP. -/
theorem C1_counterexample :
    ¬ |(assess zeroBundle defaultEstimate).level - defaultEstimate.level| ≤
        MAX_STEP := by
  norm_num [assess, blendedScore, zeroBundle, defaultEstimate, MAX_STEP]

/-- C1 (amended): for every prior whose sample count is at least 1 (every
assessment after the seeding one), the level moves by at most MAX_STEP. -/
theorem C1_bounded_step (b : FeatureBundle) (P : IntelligenceEstimate)
    (h : 1 ≤ P.sampleCount) :
    |(assess b P).level - P.level| ≤ MAX_STEP := by
  have hne : ¬ P.sampleCount = 0 := by omega
  have hms : -MAX_STEP ≤ MAX_STEP := by norm_num [MAX_STEP]
  have hc := clampQ_mem ((blendedScore b - P.level) *
    (1 / ((P.sampleCount : ℚ) + 1))) (-MAX_STEP) MAX_STEP hms
  simp only [assess, hne, if_false]
  rw [abs_le]
  constructor
  · linarith [hc.1]
  · linarith [hc.2]

/-- C1 witness: the bounded-step property at a prior with three samples
and the zero bundle. -/
theorem C1_bounded_step_witness :
    1 ≤ midPrior.sampleCount ∧
      |(assess zeroBundle midPrior).level - midPrior.level| ≤ MAX_STEP :=
  ⟨by decide, C1_bounded_step zeroBundle midPrior (by decide)⟩

/-- C7: after reset, loading the session returns a record with interaction
count 0, no topics, the default estimate, and the session id and user name
unchanged. -/
theorem C7_reset_then_load (store : Store) (sid : String) (r : SessionRecord)
    (h : load store sid = some r) :
    load (reset_session store sid) sid = some (reset_record r) ∧
    (reset_record r).interactionCount = 0 ∧
    (reset_record r).topicsDiscussed = [] ∧
    (reset_record r).estimate = defaultEstimate ∧
    (reset_record r).sessionId = r.sessionId ∧
    (reset_record r).userName = r.userName := by
  refine ⟨?_, rfl, rfl, rfl, rfl, rfl⟩
  rw [reset_session, load_updateStore_self, h]
  rfl

/-- C7 witness: reset and reload on a concrete one-session store. -/
theorem C7_reset_then_load_witness :
    load store0 "session_Ada" = some (freshRecord "session_Ada" "Ada") ∧
    load (reset_session store0 "session_Ada") "session_Ada" =
      some (reset_record (freshRecord "session_Ada" "Ada")) :=
  ⟨by decide,
    (C7_reset_then_load store0 "session_Ada"
      (freshRecord "session_Ada" "Ada") (by decide)).1⟩

/-- C3: a turn whose three stages all succeed increments the stored
interaction count by exactly 1; a turn that fails at any stage leaves the
count unchanged, so a retried turn is never double-counted. -/
theorem C3_increment_once (stages : PipelineStages) (store : Store)
    (sid input : String) (r : SessionRecord)
    (hload : load store sid = some r) :
    (∀ b e resp, stages.analyzeStep input = some b →
        stages.assessStep input b sid = some e →
        stages.generateStep input e sid = some resp →
        (load (process_user_input stages input sid store).2 sid).map
          SessionRecord.interactionCount = some (r.interactionCount + 1)) ∧
    (stages.analyzeStep input = none →
        (load (process_user_input stages input sid store).2 sid).map
          SessionRecord.interactionCount = some r.interactionCount) ∧
    (∀ b, stages.analyzeStep input = some b →
        stages.assessStep input b sid = none →
        (load (process_user_input stages input sid store).2 sid).map
          SessionRecord.interactionCount = some r.interactionCount) ∧
    (∀ b e, stages.analyzeStep input = some b →
        stages.assessStep input b sid = some e →
        stages.generateStep input e sid = none →
        (load (process_user_input stages input sid store).2 sid).map
          SessionRecord.interactionCount = some r.interactionCount) := by
  refine ⟨?_, ?_, ?_, ?_⟩
  · intro b e resp h1 h2 h3
    simp [process_user_input, h1, h2, h3, increment_interaction,
      update_session_intelligence, load_updateStore_self, hload,
      applyIntelligenceUpdate]
  · intro h1
    simp [process_user_input, h1, hload]
  · intro b h1 h2
    simp [process_user_input, h1, h2, hload]
  · intro b e h1 h2 h3
    simp [process_user_input, h1, h2, h3, update_session_intelligence,
      load_updateStore_self, hload, applyIntelligenceUpdate]

/-- C3 witness: a completed turn on the concrete store increments the
count of the session from 0 to 1. -/
theorem C3_increment_once_witness :
    load store0 "session_Ada" = some (freshRecord "session_Ada" "Ada") ∧
    (load (process_user_input stagesOK "hi" "session_Ada" store0).2
        "session_Ada").map SessionRecord.interactionCount =
      some ((freshRecord "session_Ada" "Ada").interactionCount + 1) :=
  ⟨by decide,
    (C3_increment_once stagesOK store0 "session_Ada" "hi"
        (freshRecord "session_Ada" "Ada") (by decide)).1
      (analyze "hi") (assess (analyze "hi") defaultEstimate) "ok" rfl rfl rfl⟩

/-- C9: process_user_input is total: it returns either the generated
response or the fixed fallback message; and a turn failing at the
response-generation stage is not atomic: the fallback is returned, the
intelligence update is already merged into the session, yet the
interaction count is unchanged. -/
theorem C9_total_not_atomic (stages : PipelineStages) (store : Store)
    (sid input : String) :
    ((process_user_input stages input sid store).1 = fallbackMessage ∨
      ∃ b e resp, stages.analyzeStep input = some b ∧
        stages.assessStep input b sid = some e ∧
        stages.generateStep input e sid = some resp ∧
        (process_user_input stages input sid store).1 = resp) ∧
    (∀ r b e, load store sid = some r →
        stages.analyzeStep input = some b →
        stages.assessStep input b sid = some e →
        stages.generateStep input e sid = none →
        (process_user_input stages input sid store).1 = fallbackMessage ∧
        load (process_user_input stages input sid store).2 sid =
          some (applyIntelligenceUpdate r b e) ∧
        (applyIntelligenceUpdate r b e).interactionCount =
          r.interactionCount) := by
  constructor
  · rcases h1 : stages.analyzeStep input with _ | b
    · left; simp [process_user_input, h1]
    · rcases h2 : stages.assessStep input b sid with _ | e
      · left; simp [process_user_input, h1, h2]
      · rcases h3 : stages.generateStep input e sid with _ | resp
        · left; simp [process_user_input, h1, h2, h3]
        · right
          exact ⟨b, e, resp, rfl, h2, h3, by
            simp [process_user_input, h1, h2, h3]⟩
  · intro r b e hload h1 h2 h3
    refine ⟨?_, ?_, rfl⟩
    · simp [process_user_input, h1, h2, h3]
    · simp [process_user_input, h1, h2, h3, update_session_intelligence,
        load_updateStore_self, hload]

/-- C9 witness: a turn failing at generation on the concrete store returns
the fallback, persists the intelligence update and leaves the count at
0. -/
theorem C9_total_not_atomic_witness :
    (process_user_input stagesGenFail "hi" "session_Ada" store0).1 =
      fallbackMessage ∧
    load (process_user_input stagesGenFail "hi" "session_Ada" store0).2
        "session_Ada" =
      some (applyIntelligenceUpdate (freshRecord "session_Ada" "Ada")
        (analyze "hi") (assess (analyze "hi") defaultEstimate)) ∧
    (applyIntelligenceUpdate (freshRecord "session_Ada" "Ada")
        (analyze "hi") (assess (analyze "hi") defaultEstimate)).interactionCount =
      (freshRecord "session_Ada" "Ada").interactionCount :=
  (C9_total_not_atomic stagesGenFail store0 "session_Ada" "hi").2
    (freshRecord "session_Ada" "Ada") (analyze "hi")
    (assess (analyze "hi") defaultEstimate) (by decide) rfl rfl rfl

theorem incAvg_mul (a s : ℚ) (n : ℕ) :
    (a + (s - a) / ((n : ℚ) + 1)) * ((n : ℚ) + 1) = a * n + s := by
  have h : ((n : ℚ) + 1) ≠ 0 := by positivity
  field_simp
  ring

theorem applyUpdates_avg_invariant
    (l : List (FeatureBundle × IntelligenceEstimate)) :
    ∀ r : SessionRecord,
      (applyUpdates r l).nUpdates = r.nUpdates + l.length ∧
      (applyUpdates r l).avgVocabularyScore *
          ((r.nUpdates : ℚ) + (l.length : ℚ)) =
        r.avgVocabularyScore * (r.nUpdates : ℚ) +
          (l.map (fun p => p.1.vocabularyScore)).sum ∧
      (applyUpdates r l).avgComplexityScore *
          ((r.nUpdates : ℚ) + (l.length : ℚ)) =
        r.avgComplexityScore * (r.nUpdates : ℚ) +
          (l.map (fun p => p.1.complexityScore)).sum := by
  induction l with
  | nil => intro r; simp [applyUpdates]
  | cons p rest ih =>
      intro r
      have hstep : applyUpdates r (p :: rest) =
          applyUpdates (applyIntelligenceUpdate r p.1 p.2) rest := rfl
      obtain ⟨ihn, ihv, ihc⟩ := ih (applyIntelligenceUpdate r p.1 p.2)
      have hn : (applyIntelligenceUpdate r p.1 p.2).nUpdates =
          r.nUpdates + 1 := rfl
      have hv : (applyIntelligenceUpdate r p.1 p.2).avgVocabularyScore =
          r.avgVocabularyScore +
            (p.1.vocabularyScore - r.avgVocabularyScore) /
              ((r.nUpdates : ℚ) + 1) := rfl
      have hc : (applyIntelligenceUpdate r p.1 p.2).avgComplexityScore =
          r.avgComplexityScore +
            (p.1.complexityScore - r.avgComplexityScore) /
              ((r.nUpdates : ℚ) + 1) := rfl
      refine ⟨?_, ?_, ?_⟩
      · rw [hstep, ihn, hn]
        simp
        omega
      · rw [hstep]
        have hlen : ((r.nUpdates : ℚ) + ((p :: rest).length : ℚ)) =
            (((applyIntelligenceUpdate r p.1 p.2).nUpdates : ℚ) +
              (rest.length : ℚ)) := by
          rw [hn]
          push_cast [List.length_cons]
          ring
        rw [hlen, ihv, hn, hv]
        have hmul := incAvg_mul r.avgVocabularyScore p.1.vocabularyScore
          r.nUpdates
        push_cast
        push_cast at hmul
        simp only [List.map_cons, List.sum_cons]
        linarith [hmul]
      · rw [hstep]
        have hlen : ((r.nUpdates : ℚ) + ((p :: rest).length : ℚ)) =
            (((applyIntelligenceUpdate r p.1 p.2).nUpdates : ℚ) +
              (rest.length : ℚ)) := by
          rw [hn]
          push_cast [List.length_cons]
          ring
        rw [hlen, ihc, hn, hc]
        have hmul := incAvg_mul r.avgComplexityScore p.1.complexityScore
          r.nUpdates
        push_cast
        push_cast at hmul
        simp only [List.map_cons, List.sum_cons]
        linarith [hmul]

/-- C4: starting from a fresh record, after a sequence of
applyIntelligenceUpdate calls the stored running averages equal the exact
arithmetic means of the vocabulary and complexity scores seen, although
they are maintained incrementally. -/
theorem C4_incremental_average
    (l : List (FeatureBundle × IntelligenceEstimate)) (sid name : String)
    (hl : l ≠ []) :
    (applyUpdates (freshRecord sid name) l).avgVocabularyScore =
      (l.map (fun p => p.1.vocabularyScore)).sum / (l.length : ℚ) ∧
    (applyUpdates (freshRecord sid name) l).avgComplexityScore =
      (l.map (fun p => p.1.complexityScore)).sum / (l.length : ℚ) := by
  obtain ⟨_, hv, hc⟩ := applyUpdates_avg_invariant l (freshRecord sid name)
  have hlen : (l.length : ℚ) ≠ 0 := by
    simpa using fun h => hl (List.length_eq_zero.mp h)
  have h0 : ((freshRecord sid name).nUpdates : ℚ) = 0 := rfl
  have ha : (freshRecord sid name).avgVocabularyScore = 0 := rfl
  have hb : (freshRecord sid name).avgComplexityScore = 0 := rfl
  rw [h0, ha, zero_add, zero_mul, zero_add] at hv
  rw [h0, hb, zero_add, zero_mul, zero_add] at hc
  exact ⟨(eq_div_iff hlen).mpr hv, (eq_div_iff hlen).mpr hc⟩

/-- C4 witness: the averaged vocabulary score over a concrete two-update
sequence equals the mean of the two scores. -/
theorem C4_incremental_average_witness :
    updateList ≠ [] ∧
    (applyUpdates (freshRecord "s" "Ada") updateList).avgVocabularyScore =
      (updateList.map (fun p => p.1.vocabularyScore)).sum /
        (updateList.length : ℚ) :=
  ⟨by simp [updateList],
    (C4_incremental_average updateList "s" "Ada" (by simp [updateList])).1⟩

end ACE2

